import Mathlib

/-!
Verification development for the apple-event-shader repository.

The numeric helpers, the HUD parameter controller, the heat-trail draw
renderer and the legacy scene's per-frame update are embedded as pure
functions over the rationals, translated from the TypeScript sources
(src/utils/math.ts, src/components/ParameterController.ts,
src/renderer/DrawRenderer.ts, src/scenes/AppScene.ts and the thermal
fragment shader).  Machine floats are modelled by exact rationals.
-/

namespace AppleShader

/-- Linear interpolation, from src/utils/math.ts `lerp`. -/
def lerp (a b t : ℚ) : ℚ := a + (b - a) * t

/-- Frame-rate normalised easing factor, from src/utils/math.ts `lerpSpeed`:
the raw factor `base * deltaTime * 60` clamped into `[0, 1]`. -/
def lerpSpeed (base deltaTime : ℚ) : ℚ :=
  let n := base * deltaTime * 60
  if n > 1 then 1 else if n < 0 then 0 else n

/-- Clamp, from src/utils/math.ts `clamp`:
`Math.min(Math.max(value, min), max)`. -/
def clamp (value lo hi : ℚ) : ℚ := min (max value lo) hi

/-- The nine HUD-controllable effect parameters (src/types, DEFAULT_PARAMETERS). -/
structure EffectParameters where
  effectIntensity : ℚ
  contrastPower : ℚ
  colorSaturation : ℚ
  heatSensitivity : ℚ
  videoBlendAmount : ℚ
  gradientShift : ℚ
  heatDecay : ℚ
  interactionRadius : ℚ
  reactivity : ℚ
deriving DecidableEq

/-- Default parameter values, from src/config/constants.ts `DEFAULT_PARAMETERS`. -/
def DEFAULT_PARAMETERS : EffectParameters :=
  { effectIntensity := 1
    contrastPower := 4/5
    colorSaturation := 13/10
    heatSensitivity := 1/2
    videoBlendAmount := 1
    gradientShift := 0
    heatDecay := 19/20
    interactionRadius := 1
    reactivity := 1 }

/-- Names of the nine effect parameters. -/
inductive ParamName where
  | effectIntensity
  | contrastPower
  | colorSaturation
  | heatSensitivity
  | videoBlendAmount
  | gradientShift
  | heatDecay
  | interactionRadius
  | reactivity
deriving DecidableEq

/-- A declared parameter range (src/config/constants.ts `PARAMETER_RANGES`). -/
structure ParamRange where
  min : ℚ
  max : ℚ
  step : ℚ
deriving DecidableEq

/-- Declared ranges of the nine parameters, from src/config/constants.ts
`PARAMETER_RANGES`. -/
def PARAMETER_RANGES : ParamName → ParamRange
  | .effectIntensity => ⟨0, 2, 1/10⟩
  | .contrastPower => ⟨1/10, 2, 1/10⟩
  | .colorSaturation => ⟨1/2, 3, 1/10⟩
  | .heatSensitivity => ⟨1/10, 2, 1/10⟩
  | .videoBlendAmount => ⟨0, 1, 1/10⟩
  | .gradientShift => ⟨-1/2, 1/2, 1/20⟩
  | .heatDecay => ⟨4/5, 99/100, 1/100⟩
  | .interactionRadius => ⟨1/10, 3, 1/10⟩
  | .reactivity => ⟨1/10, 3, 1/10⟩

/-- Read one field of the parameter record by name. -/
def getField (name : ParamName) (p : EffectParameters) : ℚ :=
  match name with
  | .effectIntensity => p.effectIntensity
  | .contrastPower => p.contrastPower
  | .colorSaturation => p.colorSaturation
  | .heatSensitivity => p.heatSensitivity
  | .videoBlendAmount => p.videoBlendAmount
  | .gradientShift => p.gradientShift
  | .heatDecay => p.heatDecay
  | .interactionRadius => p.interactionRadius
  | .reactivity => p.reactivity

/-- Write one field of the parameter record by name
(the assignment `this.parameters[name] = value`). -/
def setField (name : ParamName) (value : ℚ) (p : EffectParameters) : EffectParameters :=
  match name with
  | .effectIntensity => { p with effectIntensity := value }
  | .contrastPower => { p with contrastPower := value }
  | .colorSaturation => { p with colorSaturation := value }
  | .heatSensitivity => { p with heatSensitivity := value }
  | .videoBlendAmount => { p with videoBlendAmount := value }
  | .gradientShift => { p with gradientShift := value }
  | .heatDecay => { p with heatDecay := value }
  | .interactionRadius => { p with interactionRadius := value }
  | .reactivity => { p with reactivity := value }

/-- ParameterController.setParameter (src/components/ParameterController.ts,
lines 92-101): the value is first clamped to the declared range by
`Math.max(range.min, Math.min(range.max, value))`, then stored. -/
def ParameterController.setParameter (name : ParamName) (value : ℚ)
    (p : EffectParameters) : EffectParameters :=
  let range := PARAMETER_RANGES name
  let value := max range.min (min range.max value)
  setField name value p

/-- ParameterController.getParameter: returns the stored value. -/
def ParameterController.getParameter (name : ParamName) (p : EffectParameters) : ℚ :=
  getField name p

/-- ParameterController.resetToDefaults (lines 120-129): replaces the whole
parameter record with a fresh copy of `DEFAULT_PARAMETERS`. -/
def ParameterController.resetToDefaults (_p : EffectParameters) : EffectParameters :=
  DEFAULT_PARAMETERS

/-- Apply a finite sequence of `setParameter` calls in order. -/
def applySetParameters (ops : List (ParamName × ℚ)) (p : EffectParameters) :
    EffectParameters :=
  ops.foldl (fun acc op => ParameterController.setParameter op.1 op.2 acc) p

/-- A 2-component rational vector. -/
structure Vec2 where
  x : ℚ
  y : ℚ
deriving DecidableEq

/-- A 3-component rational vector. -/
structure Vec3 where
  x : ℚ
  y : ℚ
  z : ℚ
deriving DecidableEq

/-- A 4-component rational vector. -/
structure Vec4 where
  x : ℚ
  y : ℚ
  z : ℚ
  w : ℚ
deriving DecidableEq

/-- Component-wise THREE.Vector3.lerp: `this.x += (v.x - this.x) * alpha`. -/
def Vec3.lerpTo (p target : Vec3) (alpha : ℚ) : Vec3 :=
  ⟨lerp p.x target.x alpha, lerp p.y target.y alpha, lerp p.z target.z alpha⟩

/-- CPU-side state of the DrawRenderer (src/renderer/DrawRenderer.ts).
`rtA` and `rtB` are the identities of the two render-target texture objects
allocated once in the constructor; the `u...` fields are the shader uniforms.
The GPU pass itself writes pixels into `rtA` and is external to this model;
`render` models the uniform rebinding and the ping-pong swap. -/
structure DrawRendererState where
  rtA : ℕ
  rtB : ℕ
  uRadius : Vec3
  uPosition : Vec2
  uDirection : Vec4
  uResolution : Vec3
  uTexture : Option ℕ
  uSizeDamping : ℚ
  uFadeDamping : ℚ
  uDraw : ℚ
deriving DecidableEq

/-- DrawRenderer constructor state: two freshly allocated (hence distinct)
render targets and the uniform defaults of DrawRenderer.ts lines 36-45. -/
def DrawRenderer.create : DrawRendererState :=
  { rtA := 0
    rtB := 1
    uRadius := ⟨-8, 9/10, 150⟩
    uPosition := ⟨0, 0⟩
    uDirection := ⟨0, 0, 0, 0⟩
    uResolution := ⟨0, 0, 0⟩
    uTexture := none
    uSizeDamping := 4/5
    uFadeDamping := 49/50
    uDraw := 0 }

/-- DrawRenderer.getTexture: returns the render target currently in the
"output" role, `this.renderTargetB.texture`. -/
def DrawRenderer.getTexture (s : DrawRendererState) : ℕ := s.rtB

/-- DrawRenderer.render (DrawRenderer.ts lines 133-143): binds the previous
output as the pass input (`uTexture`), issues the GPU pass into target A
(external), then swaps the two targets' roles. -/
def DrawRenderer.render (s : DrawRendererState) : DrawRendererState :=
  { s with uTexture := some s.rtB, rtA := s.rtB, rtB := s.rtA }

/-- DrawRenderer.updateDraw: stores the per-frame heat level uniform. -/
def DrawRenderer.updateDraw (v : ℚ) (s : DrawRendererState) : DrawRendererState :=
  { s with uDraw := v }

/-- DrawRenderer.updatePosition: stores the cursor position uniform, mapping
NDC input `[-1,1]` into `[0,1]` when `normalized` is set. -/
def DrawRenderer.updatePosition (p : Vec2) (normalized : Bool) (s : DrawRendererState) :
    DrawRendererState :=
  let x := if normalized then 1/2 * p.x + 1/2 else p.x
  let y := if normalized then 1/2 * p.y + 1/2 else p.y
  { s with uPosition := ⟨x, y⟩ }

/-- DrawRenderer.updateDirection (lines 117-119): stores the movement delta
as `(d.x, d.y, 0, 100)`, the fourth component being the fixed direction
multiplier. -/
def DrawRenderer.updateDirection (d : Vec2) (s : DrawRendererState) : DrawRendererState :=
  { s with uDirection := ⟨d.x, d.y, 0, 100⟩ }

/-- A `{value, target}` animation pair. -/
structure AnimVal where
  value : ℚ
  target : ℚ
deriving DecidableEq

/-- Uniform set of the legacy scene's thermal shader material that
AppScene.update writes each frame (AppScene.ts lines 521-536). -/
structure HeatUniforms where
  rnd : ℚ
  opacity : ℚ
  power : ℚ
  amount : ℚ
  blendVideo : ℚ
  textureMap : Option ℕ
  effectIntensity : ℚ
  colorSaturation : ℚ
  gradientShift : ℚ
  interactionSize : ℚ
deriving DecidableEq

/-- State of the legacy scene (src/scenes/AppScene.ts) touched by
`update`: animation values, interaction state, parameters, the draw
renderer's uniforms, the thermal material's uniforms, the mesh scale and
the video playback clock. -/
structure AppSceneState where
  blendVideo : AnimVal
  amount : AnimVal
  mousePosition : Vec3
  mouseTarget : Vec3
  move : AnimVal
  scrollOpacity : AnimVal
  scrollScale : AnimVal
  scrollPower : AnimVal
  hold : Bool
  heatUp : ℚ
  parameters : EffectParameters
  videoReady : Bool
  textureReady : Bool
  videoCurrentTime : ℚ
  videoTexture : Option ℕ
  draw : DrawRendererState
  uniforms : HeatUniforms
  meshScale : Vec3
deriving DecidableEq

/-- Field initialisers of the legacy AppScene (AppScene.ts lines 40-76),
with the draw renderer freshly constructed. -/
def AppScene.initial : AppSceneState :=
  { blendVideo := ⟨0, 0⟩
    amount := ⟨0, 0⟩
    mousePosition := ⟨0, 0, 0⟩
    mouseTarget := ⟨0, 0, 0⟩
    move := ⟨1, 1⟩
    scrollOpacity := ⟨1, 1⟩
    scrollScale := ⟨1, 1⟩
    scrollPower := ⟨4/5, 4/5⟩
    hold := false
    heatUp := 0
    parameters := DEFAULT_PARAMETERS
    videoReady := false
    textureReady := false
    videoCurrentTime := 0
    videoTexture := none
    draw := DrawRenderer.create
    uniforms :=
      { rnd := 0
        opacity := 1
        power := 4/5
        amount := 0
        blendVideo := 0
        textureMap := none
        effectIntensity := 1
        colorSaturation := 13/10
        gradientShift := 0
        interactionSize := 1 }
    meshScale := ⟨1, 1, 1⟩ }

/-- The per-frame heat accumulation step (AppScene.ts lines 508-511):
`heatUp += heatSensitivity * dt * 60`, capped to `1.3`. -/
def heatAccumStep (s dt h : ℚ) : ℚ :=
  let h2 := h + s * dt * 60
  if h2 > 13/10 then 13/10 else h2

/-- The per-frame heat decay step (AppScene.ts lines 546-548):
`heatUp *= heatDecay`, snapped to exactly `0` below `0.001`. -/
def heatDecaySnap (d h : ℚ) : ℚ :=
  let h2 := h * d
  if h2 < 1/1000 then 0 else h2

/-- The two post-update clamps on the animated power value
(AppScene.ts lines 487-488). -/
def clampPower (v : ℚ) : ℚ :=
  let v := if v < 4/5 then 4/5 else v
  if v > 1 then 1 else v

/-- AppScene.update (AppScene.ts lines 472-555), as a state transformer.
`rnd` stands for the `Math.random()` sample of the frame and `dt` is the
frame's delta time in seconds.  Statement order follows the source:
guard on `textureReady`; mouse/move/power/opacity/scale/amount smoothing
(with the hard power clamp); the video block (loop wrap, draw-renderer
position, conditional heat accumulation, heat-level push, video blend);
the uniform writes and mesh scaling; the unconditional heat decay with
cleanup snap; and the end-of-frame reset of the direction uniform and the
hold flag. -/
def AppScene.update (rnd dt : ℚ) (st : AppSceneState) : AppSceneState :=
  if st.textureReady = false then st else
  let mousePosition := st.mousePosition.lerpTo st.mouseTarget (lerpSpeed (4/5) dt)
  let moveTarget : ℚ := if st.hold then 19/20 else 1
  let powerTarget : ℚ := if st.hold then 1 else 4/5
  let moveValue := lerp st.move.value moveTarget (lerpSpeed (1/100) dt)
  let powerValue := clampPower (lerp st.scrollPower.value powerTarget (lerpSpeed (1/100) dt))
  let opacityValue :=
    lerp st.scrollOpacity.value (st.scrollOpacity.target * moveValue) (lerpSpeed (1/5) dt)
  let scaleValue := lerp st.scrollScale.value st.scrollScale.target (lerpSpeed (1/5) dt)
  let amountValue :=
    if st.amount.value < 99999/100000 then
      lerp st.amount.value st.amount.target (1/10 * dt * 60)
    else st.amount.value
  let videoCurrentTime :=
    if st.videoReady then
      (if st.videoCurrentTime ≥ 1195/100 then 295/100 else st.videoCurrentTime)
    else st.videoCurrentTime
  let draw :=
    if st.videoReady then
      DrawRenderer.updatePosition ⟨mousePosition.x, mousePosition.y⟩ true st.draw
    else st.draw
  let heatUp :=
    if st.videoReady ∧ st.hold then
      heatAccumStep st.parameters.heatSensitivity dt st.heatUp
    else st.heatUp
  let draw := if st.videoReady then DrawRenderer.updateDraw heatUp draw else draw
  let blendVideoValue :=
    if st.videoReady then
      lerp st.blendVideo.value st.blendVideo.target (lerpSpeed (1/10) dt)
    else st.blendVideo.value
  let uniforms : HeatUniforms :=
    { rnd := rnd
      opacity := opacityValue
      power := st.parameters.contrastPower
      amount := amountValue
      blendVideo := st.parameters.videoBlendAmount
      textureMap :=
        if st.videoTexture.isSome then st.videoTexture else st.uniforms.textureMap
      effectIntensity := st.parameters.effectIntensity
      colorSaturation := st.parameters.colorSaturation
      gradientShift := st.parameters.gradientShift
      interactionSize := st.parameters.interactionRadius }
  let meshScale : Vec3 := ⟨scaleValue, scaleValue, scaleValue⟩
  let heatUp := heatDecaySnap st.parameters.heatDecay heatUp
  let draw := DrawRenderer.updateDirection ⟨0, 0⟩ draw
  { blendVideo := ⟨blendVideoValue, st.blendVideo.target⟩
    amount := ⟨amountValue, st.amount.target⟩
    mousePosition := mousePosition
    mouseTarget := st.mouseTarget
    move := ⟨moveValue, moveTarget⟩
    scrollOpacity := ⟨opacityValue, st.scrollOpacity.target⟩
    scrollScale := ⟨scaleValue, st.scrollScale.target⟩
    scrollPower := ⟨powerValue, powerTarget⟩
    hold := false
    heatUp := heatUp
    parameters := st.parameters
    videoReady := st.videoReady
    textureReady := st.textureReady
    videoCurrentTime := videoCurrentTime
    videoTexture := st.videoTexture
    draw := draw
    uniforms := uniforms
    meshScale := meshScale }

/-- The legacy scene's setParameter (src/scenes/AppScene.ts lines 585-587):
`this.parameters[name] = value`, stored directly with no range clamping. -/
def AppScene.setParameter (name : ParamName) (value : ℚ) (st : AppSceneState) :
    AppSceneState :=
  { st with parameters := setField name value st.parameters }

/-- Stored heat across consecutive holding frames at fixed `dt = 1/60`:
each frame accumulates (lines 508-511) and then decays with cleanup snap
(lines 546-548). -/
def heatHoldStored (s d h0 : ℚ) : ℕ → ℚ
  | 0 => h0
  | n + 1 => heatDecaySnap d (heatAccumStep s (1/60) (heatHoldStored s d h0 n))

/-- The heat value observed right after the accumulation step of holding
frame `n+1` (the value pushed to the draw renderer by `updateDraw`). -/
def heatHoldObs (s d h0 : ℚ) (n : ℕ) : ℚ :=
  heatAccumStep s (1/60) (heatHoldStored s d h0 n)

/-- Stored heat across consecutive non-holding frames: only the decay step
with cleanup snap runs. -/
def heatReleaseStored (d h0 : ℚ) : ℕ → ℚ
  | 0 => h0
  | n + 1 => heatDecaySnap d (heatReleaseStored d h0 n)

/-- Bounding rectangle of a DOM element, as used for coordinate mapping. -/
structure DOMRect where
  left : ℚ
  top : ℚ
  width : ℚ
  height : ℚ
deriving DecidableEq

/-- screenToNDC (src/utils/math.ts lines 44-63): raw screen pixels plus a
bounding rectangle to normalized device coordinates in `[-1,1]`, Y flipped. -/
def screenToNDC (screenX screenY : ℚ) (bounds : DOMRect) : ℚ × ℚ :=
  let nx := if bounds.width > 0 then (screenX - bounds.left) / bounds.width else 1/2
  let ny := if bounds.height > 0 then (screenY - bounds.top) / bounds.height else 1/2
  (2 * (nx - 1/2), 2 * (-(ny - 1/2)))

/-- GLSL mix. -/
def glslMix (x y a : ℚ) : ℚ := x * (1 - a) + y * a

/-- GLSL mix on 3-vectors. -/
def mix3 (x y : Vec3) (a : ℚ) : Vec3 :=
  ⟨glslMix x.x y.x a, glslMix x.y y.y a, glslMix x.z y.z a⟩

/-- GLSL smoothstep. -/
def smoothstep (e0 e1 x : ℚ) : ℚ :=
  let t := clamp ((x - e0) / (e1 - e0)) 0 1
  t * t * (3 - 2 * t)

/-- Gradient blend-point uniform `blend = [0.4, 0.7, 0.81, 0.91]`. -/
def blendU : Vec4 := ⟨2/5, 7/10, 81/100, 91/100⟩

/-- Gradient fade-width uniform `fade = [1, 1, 0.72, 0.52]`. -/
def fadeU : Vec4 := ⟨1, 1, 18/25, 13/25⟩

/-- Gradient uniform `maxBlend = [0.8, 0.87, 0.5, 0.27]`, reinterpreted by
the shader as two more blend points and two more fade widths. -/
def maxBlendU : Vec4 := ⟨4/5, 87/100, 1/2, 27/100⟩

/-- The 7 thermal palette stops, `hexToRGB` applied to the palette
`000000, 073dff, 53d5fd, fefcdd, ffec6a, f9d400, a61904`. -/
def color1 : Vec3 := ⟨0, 0, 0⟩

/-- Palette stop 2, hex 073dff. -/
def color2 : Vec3 := ⟨7/255, 61/255, 1⟩

/-- Palette stop 3, hex 53d5fd. -/
def color3 : Vec3 := ⟨83/255, 213/255, 253/255⟩

/-- Palette stop 4, hex fefcdd. -/
def color4 : Vec3 := ⟨254/255, 252/255, 221/255⟩

/-- Palette stop 5, hex ffec6a. -/
def color5 : Vec3 := ⟨1, 236/255, 106/255⟩

/-- Palette stop 6, hex f9d400. -/
def color6 : Vec3 := ⟨249/255, 212/255, 0⟩

/-- Palette stop 7, hex a61904. -/
def color7 : Vec3 := ⟨166/255, 25/255, 4/255⟩

/-- The ordered stop-blending chain of the thermal fragment shader's
`gradient` (part_006 lines 84-106): six smoothstep blend factors, then the
seven stops mixed in the fixed order 1 to 7, evaluated at an effective
input `t` that has already been shifted and clamped. -/
def gradientStops (t : ℚ) : Vec3 :=
  let p1 := blendU.x; let p2 := blendU.y; let p3 := blendU.z; let p4 := blendU.w
  let p5 := maxBlendU.x; let p6 := maxBlendU.y
  let f1 := fadeU.x; let f2 := fadeU.y; let f3 := fadeU.z; let f4 := fadeU.w
  let f5 := maxBlendU.z; let f6 := maxBlendU.w
  let b1 := smoothstep (p1 - f1 * (1/2)) (p1 + f1 * (1/2)) t
  let b2 := smoothstep (p2 - f2 * (1/2)) (p2 + f2 * (1/2)) t
  let b3 := smoothstep (p3 - f3 * (1/2)) (p3 + f3 * (1/2)) t
  let b4 := smoothstep (p4 - f4 * (1/2)) (p4 + f4 * (1/2)) t
  let b5 := smoothstep (p5 - f5 * (1/2)) (p5 + f5 * (1/2)) t
  let b6 := smoothstep (p6 - f6 * (1/2)) (p6 + f6 * (1/2)) t
  let col := color1
  let col := mix3 col color2 b1
  let col := mix3 col color3 b2
  let col := mix3 col color4 b3
  let col := mix3 col color5 b4
  let col := mix3 col color6 b5
  let col := mix3 col color7 b6
  col

/-- The thermal fragment shader's `gradient(t)` (part_006 lines 80-107):
first `t = clamp(t + gradientShift, 0.0, 1.0)`, then the ordered stop
chain. -/
def gradient (gradientShift t : ℚ) : Vec3 :=
  gradientStops (clamp (t + gradientShift) 0 1)

/-! Helper lemmas shared by the claim theorems. -/

/-- The two clamp orders agree on a nonempty interval. -/
lemma max_min_eq_min_max (lo hi v : ℚ) (h : lo ≤ hi) :
    max lo (min hi v) = min (max v lo) hi := by
  simp only [max_def, min_def]
  split_ifs <;> linarith

/-- The animated power value is hard-clamped into `[0.8, 1]`. -/
lemma clampPower_bounds (v : ℚ) : 4/5 ≤ clampPower v ∧ clampPower v ≤ 1 := by
  simp only [clampPower]
  split_ifs <;> constructor <;> linarith

/-- Accumulation at the claims' fixed `dt = 1/60` adds exactly the
sensitivity. -/
lemma heatAccumStep_eq (s h : ℚ) :
    heatAccumStep s (1/60) h = if 13/10 < h + s then 13/10 else h + s := by
  have e : h + s * (1/60) * 60 = h + s := by ring
  simp only [heatAccumStep, gt_iff_lt, e]

/-- Decay-with-snap written with its branches exposed. -/
lemma heatDecaySnap_eq (d h : ℚ) :
    heatDecaySnap d h = if h * d < 1/1000 then 0 else h * d := rfl

/-- The observed heat value never exceeds the ceiling. -/
lemma heatHoldObs_le (s d h0 : ℚ) (n : ℕ) : heatHoldObs s d h0 n ≤ 13/10 := by
  unfold heatHoldObs
  rw [heatAccumStep_eq]
  split_ifs with h
  · exact le_refl _
  · exact le_of_not_lt h

/-- Stored heat stays nonnegative along holding frames. -/
lemma heatHoldStored_nonneg (s d h0 : ℚ) (hs : 0 ≤ s) (hd : 0 ≤ d) (h0nn : 0 ≤ h0) :
    ∀ n, 0 ≤ heatHoldStored s d h0 n := by
  intro n
  induction n with
  | zero => exact h0nn
  | succ n ih =>
    simp only [heatHoldStored]
    rw [heatDecaySnap_eq]
    split_ifs with h
    · exact le_refl 0
    · have hacc : 0 ≤ heatAccumStep s (1/60) (heatHoldStored s d h0 n) := by
        rw [heatAccumStep_eq]
        split_ifs with h2
        · norm_num
        · linarith
      exact mul_nonneg hacc hd

/-- The observed heat is at least `min s 1.3` on every holding frame. -/
lemma heatHoldObs_lb (s d h0 : ℚ) (hs : 0 ≤ s) (hd : 0 ≤ d) (h0nn : 0 ≤ h0) (n : ℕ) :
    min s (13/10) ≤ heatHoldObs s d h0 n := by
  have hst := heatHoldStored_nonneg s d h0 hs hd h0nn n
  unfold heatHoldObs
  rw [heatAccumStep_eq]
  split_ifs with h
  · exact min_le_right _ _
  · calc min s (13/10) ≤ s := min_le_left _ _
      _ ≤ heatHoldStored s d h0 n + s := by linarith

/-- Under the declared decay range and a sensitivity above the frame-wise
decay loss, the cleanup snap never fires on a holding frame: the stored
value is exactly the decayed observation. -/
lemma heatHoldStored_succ (s d h0 : ℚ) (hd1 : 4/5 ≤ d) (hd2 : d ≤ 99/100)
    (hs : 13/10 * (1 - d) < s) (h0nn : 0 ≤ h0) (n : ℕ) :
    heatHoldStored s d h0 (n + 1) = heatHoldObs s d h0 n * d := by
  have hsl : (13/1000 : ℚ) < s := by linarith
  have hobs_lb := heatHoldObs_lb s d h0 (by linarith) (by linarith) h0nn n
  have hobs_pos : (13/1000 : ℚ) ≤ heatHoldObs s d h0 n := by
    rcases le_total s (13/10) with hc | hc
    · rw [min_eq_left hc] at hobs_lb; linarith
    · rw [min_eq_right hc] at hobs_lb; linarith
  have e : heatAccumStep s (1/60) (heatHoldStored s d h0 n) = heatHoldObs s d h0 n := rfl
  simp only [heatHoldStored]
  rw [heatDecaySnap_eq, e, if_neg]
  push_neg
  have h1 : (13/1000 : ℚ) * (4/5) ≤ heatHoldObs s d h0 n * d :=
    mul_le_mul hobs_pos hd1 (by norm_num) (by linarith)
  linarith

/-- Recurrence of the observed heat along holding frames. -/
lemma heatHoldObs_succ (s d h0 : ℚ) (hd1 : 4/5 ≤ d) (hd2 : d ≤ 99/100)
    (hs : 13/10 * (1 - d) < s) (h0nn : 0 ≤ h0) (n : ℕ) :
    heatHoldObs s d h0 (n + 1) =
      if 13/10 < heatHoldObs s d h0 n * d + s then 13/10
      else heatHoldObs s d h0 n * d + s := by
  have e : heatHoldObs s d h0 (n + 1) =
      heatAccumStep s (1/60) (heatHoldStored s d h0 (n + 1)) := rfl
  rw [e, heatHoldStored_succ s d h0 hd1 hd2 hs h0nn n, heatAccumStep_eq]

/-- Below the ceiling the observed heat strictly increases. -/
lemma heatHoldObs_increase (s d h0 : ℚ) (hd1 : 4/5 ≤ d) (hd2 : d ≤ 99/100)
    (hs : 13/10 * (1 - d) < s) (h0nn : 0 ≤ h0) (n : ℕ)
    (hlt : heatHoldObs s d h0 n < 13/10) :
    heatHoldObs s d h0 n < heatHoldObs s d h0 (n + 1) := by
  rw [heatHoldObs_succ s d h0 hd1 hd2 hs h0nn n]
  split_ifs with hcap
  · exact hlt
  · nlinarith [heatHoldObs_le s d h0 n,
      mul_nonneg (sub_nonneg.2 (heatHoldObs_le s d h0 n)) (by linarith : (0:ℚ) ≤ 1 - d)]

/-- Once the observed heat equals the ceiling it stays there on the next
holding frame. -/
lemma heatHoldObs_stay (s d h0 : ℚ) (hd1 : 4/5 ≤ d) (hd2 : d ≤ 99/100)
    (hs : 13/10 * (1 - d) < s) (h0nn : 0 ≤ h0) (n : ℕ)
    (hceil : heatHoldObs s d h0 n = 13/10) :
    heatHoldObs s d h0 (n + 1) = 13/10 := by
  rw [heatHoldObs_succ s d h0 hd1 hd2 hs h0nn n, hceil, if_pos (by linarith)]

/-- Frame-to-frame growth: either the ceiling is hit, or the observation
grows by at least the fixed margin `s - 1.3 * (1 - d)`. -/
lemma heatHoldObs_growth (s d h0 : ℚ) (hd1 : 4/5 ≤ d) (hd2 : d ≤ 99/100)
    (hs : 13/10 * (1 - d) < s) (h0nn : 0 ≤ h0) (n : ℕ) :
    heatHoldObs s d h0 (n + 1) = 13/10 ∨
    heatHoldObs s d h0 n + (s - 13/10 * (1 - d)) ≤ heatHoldObs s d h0 (n + 1) := by
  rw [heatHoldObs_succ s d h0 hd1 hd2 hs h0nn n]
  split_ifs with hcap
  · exact Or.inl rfl
  · right
    nlinarith [heatHoldObs_le s d h0 n,
      mul_nonneg (sub_nonneg.2 (heatHoldObs_le s d h0 n)) (by linarith : (0:ℚ) ≤ 1 - d)]

/-- Linear lower bound on the observation until the ceiling is reached. -/
lemma heatHoldObs_linear_lb (s d h0 : ℚ) (hd1 : 4/5 ≤ d) (hd2 : d ≤ 99/100)
    (hs : 13/10 * (1 - d) < s) (h0nn : 0 ≤ h0) :
    ∀ n, heatHoldObs s d h0 n = 13/10 ∨
      heatHoldObs s d h0 0 + n * (s - 13/10 * (1 - d)) ≤ heatHoldObs s d h0 n := by
  intro n
  induction n with
  | zero => right; simp
  | succ n ih =>
    rcases ih with hceil | hlb
    · exact Or.inl (heatHoldObs_stay s d h0 hd1 hd2 hs h0nn n hceil)
    · rcases heatHoldObs_growth s d h0 hd1 hd2 hs h0nn n with hceil | hg
      · exact Or.inl hceil
      · right
        push_cast
        linarith

end AppleShader

namespace AppleShader

/-! Theorems for the claims. -/

/-- C1 counterexample: the legacy scene's `setParameter` (AppScene.ts lines
585-587) stores the written value without any clamping, so after writing
`5` to `heatDecay`, whose declared range is `[0.8, 0.99]`, the stored value
is `5`, strictly above the declared maximum: the claim's "the stored value
after any setParameter is within the declared range" fails on this cited
code path. -/
theorem legacy_setParameter_unclamped :
    (AppScene.setParameter .heatDecay 5 AppScene.initial).parameters.heatDecay = 5 ∧
    (PARAMETER_RANGES .heatDecay).max <
      (AppScene.setParameter .heatDecay 5 AppScene.initial).parameters.heatDecay := by
  refine ⟨rfl, ?_⟩
  show (99/100 : ℚ) < 5
  norm_num

/-- C1 (amended): on the parameter surface exposed to the HUD
(ParameterController, whose `setParameter` and `getParameter` the
refactored scene delegates to), for every parameter name with declared
range `[min,max]` and every rational input `v`, `setParameter` followed by
`getParameter` returns `clamp(v, min, max)`; the write never fails and the
stored value is always inside the declared range.  The legacy scene's own
`setParameter` (AppScene.ts lines 585-587) is exempt: it stores the raw
value unclamped. -/
theorem setParameter_getParameter_clamps (name : ParamName) (v : ℚ) (p : EffectParameters) :
    ParameterController.getParameter name (ParameterController.setParameter name v p) =
      clamp v (PARAMETER_RANGES name).min (PARAMETER_RANGES name).max ∧
    (PARAMETER_RANGES name).min ≤
      ParameterController.getParameter name (ParameterController.setParameter name v p) ∧
    ParameterController.getParameter name (ParameterController.setParameter name v p) ≤
      (PARAMETER_RANGES name).max := by
  have hrange : (PARAMETER_RANGES name).min ≤ (PARAMETER_RANGES name).max := by
    cases name <;> norm_num [PARAMETER_RANGES]
  have hget : ParameterController.getParameter name (ParameterController.setParameter name v p) =
      max (PARAMETER_RANGES name).min (min (PARAMETER_RANGES name).max v) := by
    cases name <;> rfl
  refine ⟨?_, ?_, ?_⟩
  · rw [hget, clamp, max_min_eq_min_max _ _ _ hrange]
  · rw [hget]; exact le_max_left _ _
  · rw [hget]; exact max_le hrange (min_le_left _ _)

/-- C9: after any sequence of `setParameter` calls in any order, one call to
`resetToDefaults` leaves all nine parameters at their documented defaults,
discarding the prior values. -/
theorem resetToDefaults_restores (ops : List (ParamName × ℚ)) (p : EffectParameters) :
    ParameterController.resetToDefaults (applySetParameters ops p) = DEFAULT_PARAMETERS ∧
    ParameterController.getParameter .effectIntensity
      (ParameterController.resetToDefaults (applySetParameters ops p)) = 1 ∧
    ParameterController.getParameter .contrastPower
      (ParameterController.resetToDefaults (applySetParameters ops p)) = 4/5 ∧
    ParameterController.getParameter .colorSaturation
      (ParameterController.resetToDefaults (applySetParameters ops p)) = 13/10 ∧
    ParameterController.getParameter .heatSensitivity
      (ParameterController.resetToDefaults (applySetParameters ops p)) = 1/2 ∧
    ParameterController.getParameter .videoBlendAmount
      (ParameterController.resetToDefaults (applySetParameters ops p)) = 1 ∧
    ParameterController.getParameter .gradientShift
      (ParameterController.resetToDefaults (applySetParameters ops p)) = 0 ∧
    ParameterController.getParameter .heatDecay
      (ParameterController.resetToDefaults (applySetParameters ops p)) = 19/20 ∧
    ParameterController.getParameter .interactionRadius
      (ParameterController.resetToDefaults (applySetParameters ops p)) = 1 ∧
    ParameterController.getParameter .reactivity
      (ParameterController.resetToDefaults (applySetParameters ops p)) = 1 :=
  ⟨rfl, rfl, rfl, rfl, rfl, rfl, rfl, rfl, rfl, rfl⟩

/-- C4: one `render` call makes `getTexture` return the other underlying
render-target object, and a second call returns the original one: the
ping-pong swap has period 2. -/
theorem render_pingPong (s : DrawRendererState) (h : s.rtA ≠ s.rtB) :
    DrawRenderer.getTexture (DrawRenderer.render s) ≠ DrawRenderer.getTexture s ∧
    DrawRenderer.getTexture (DrawRenderer.render (DrawRenderer.render s)) =
      DrawRenderer.getTexture s := by
  exact ⟨by simpa [DrawRenderer.render, DrawRenderer.getTexture] using h, rfl⟩

/-- Witness for C4 at the constructor state, whose two render targets are
distinct objects. -/
theorem render_pingPong_witness :
    DrawRenderer.create.rtA ≠ DrawRenderer.create.rtB ∧
    (DrawRenderer.getTexture (DrawRenderer.render DrawRenderer.create) ≠
        DrawRenderer.getTexture DrawRenderer.create ∧
      DrawRenderer.getTexture (DrawRenderer.render (DrawRenderer.render DrawRenderer.create)) =
        DrawRenderer.getTexture DrawRenderer.create) :=
  ⟨by decide, render_pingPong DrawRenderer.create (by decide)⟩

/-- C5: for every bounding rectangle with positive width and height,
`screenToNDC` maps the top-left corner to `(-1, 1)`, the bottom-right corner
to `(1, -1)` and the center to `(0, 0)`, and any pointer inside the
rectangle lands in `[-1,1]` on both axes. -/
theorem screenToNDC_mapping (b : DOMRect) (hw : 0 < b.width) (hh : 0 < b.height) :
    screenToNDC b.left b.top b = (-1, 1) ∧
    screenToNDC (b.left + b.width) (b.top + b.height) b = (1, -1) ∧
    screenToNDC (b.left + b.width / 2) (b.top + b.height / 2) b = (0, 0) ∧
    ∀ sx sy, b.left ≤ sx → sx ≤ b.left + b.width → b.top ≤ sy → sy ≤ b.top + b.height →
      -1 ≤ (screenToNDC sx sy b).1 ∧ (screenToNDC sx sy b).1 ≤ 1 ∧
      -1 ≤ (screenToNDC sx sy b).2 ∧ (screenToNDC sx sy b).2 ≤ 1 := by
  have hw0 : b.width ≠ 0 := ne_of_gt hw
  have hh0 : b.height ≠ 0 := ne_of_gt hh
  refine ⟨?_, ?_, ?_, ?_⟩
  · simp only [screenToNDC, if_pos hw, if_pos hh, Prod.mk.injEq]
    constructor <;> (field_simp <;> ring)
  · simp only [screenToNDC, if_pos hw, if_pos hh, Prod.mk.injEq]
    constructor <;> (field_simp <;> ring)
  · simp only [screenToNDC, if_pos hw, if_pos hh, Prod.mk.injEq]
    constructor <;> (field_simp <;> ring)
  · intro sx sy h1 h2 h3 h4
    simp only [screenToNDC, if_pos hw, if_pos hh]
    have hx0 : 0 ≤ (sx - b.left) / b.width := div_nonneg (by linarith) hw.le
    have hx1 : (sx - b.left) / b.width ≤ 1 := (div_le_one hw).2 (by linarith)
    have hy0 : 0 ≤ (sy - b.top) / b.height := div_nonneg (by linarith) hh.le
    have hy1 : (sy - b.top) / b.height ≤ 1 := (div_le_one hh).2 (by linarith)
    refine ⟨by linarith, by linarith, by linarith, by linarith⟩

/-- Witness for C5 at a concrete bounding rectangle. -/
theorem screenToNDC_mapping_witness :
    (0 : ℚ) < (DOMRect.mk 10 20 100 50).width ∧
    screenToNDC 10 20 (DOMRect.mk 10 20 100 50) = (-1, 1) :=
  ⟨by norm_num, (screenToNDC_mapping (DOMRect.mk 10 20 100 50)
    (by norm_num) (by norm_num)).1⟩

/-- C7: after every call of the legacy scene's `update` that passes the
readiness guard, the animated power value lies in `[0.8, 1.0]`, for every
delta time, every prior state and every target. -/
theorem update_power_clamped (rnd dt : ℚ) (st : AppSceneState)
    (h : st.textureReady = true) :
    4/5 ≤ (AppScene.update rnd dt st).scrollPower.value ∧
    (AppScene.update rnd dt st).scrollPower.value ≤ 1 := by
  have hp : (AppScene.update rnd dt st).scrollPower.value =
      clampPower (lerp st.scrollPower.value (if st.hold then 1 else 4/5)
        (lerpSpeed (1/100) dt)) := by
    simp [AppScene.update, h]
  rw [hp]
  exact clampPower_bounds _

/-- Witness for C7 at a ready state. -/
theorem update_power_clamped_witness :
    ({ AppScene.initial with textureReady := true } : AppSceneState).textureReady = true ∧
    (4/5 ≤ (AppScene.update 0 (1/60)
        { AppScene.initial with textureReady := true }).scrollPower.value ∧
      (AppScene.update 0 (1/60)
        { AppScene.initial with textureReady := true }).scrollPower.value ≤ 1) :=
  ⟨rfl, update_power_clamped 0 (1/60) { AppScene.initial with textureReady := true } rfl⟩

/-- C8: before the texture-ready flag is set, `update` is a guarded no-op:
the whole scene state (animation values, heat, hold flag, draw-renderer
uniforms, material uniforms, mesh transform) is returned unchanged. -/
theorem update_noop_before_ready (rnd dt : ℚ) (st : AppSceneState)
    (h : st.textureReady = false) :
    AppScene.update rnd dt st = st := by
  simp [AppScene.update, h]

/-- Witness for C8 at the freshly constructed scene, which is not ready. -/
theorem update_noop_before_ready_witness :
    AppScene.initial.textureReady = false ∧
    AppScene.update 0 (1/60) AppScene.initial = AppScene.initial :=
  ⟨rfl, update_noop_before_ready 0 (1/60) AppScene.initial rfl⟩

/-- C10: every completed `update` of the ready legacy scene ends with the
hold flag false and the accumulator direction uniform reset to
`(0, 0, 0, 100)`; consequently a frame whose preceding inter-frame window
saw no pointer event (so `hold` is still false) only decays the heat, it
never accumulates. -/
theorem update_end_of_frame_reset (rnd dt : ℚ) (st : AppSceneState)
    (h : st.textureReady = true) :
    (AppScene.update rnd dt st).hold = false ∧
    (AppScene.update rnd dt st).draw.uDirection = ⟨0, 0, 0, 100⟩ ∧
    (st.hold = false →
      (AppScene.update rnd dt st).heatUp =
        heatDecaySnap st.parameters.heatDecay st.heatUp) := by
  refine ⟨?_, ?_, ?_⟩
  · simp [AppScene.update, h]
  · simp [AppScene.update, h, DrawRenderer.updateDirection]
  · intro hhold
    simp [AppScene.update, h, hhold]

/-- C2 counterexample: with `heatSensitivity = 0.1`, `heatDecay = 0.8`
(both inside their declared ranges) and accumulated heat starting at the
ceiling `1.3`, the value observed after the accumulation step is `1.3` on
the first holding frame but only `1.14` on the second: it neither strictly
increases nor stays at the ceiling, because the decay step also runs on
holding frames. -/
theorem heat_hold_counterexample :
    heatHoldObs (1/10) (4/5) (13/10) 0 = 13/10 ∧
    heatHoldObs (1/10) (4/5) (13/10) 1 = 57/50 ∧
    heatHoldObs (1/10) (4/5) (13/10) 1 < heatHoldObs (1/10) (4/5) (13/10) 0 := by
  have o0 : heatHoldObs (1/10) (4/5) (13/10) 0 = 13/10 := by
    unfold heatHoldObs
    rw [show heatHoldStored (1/10) (4/5) (13/10) 0 = 13/10 from rfl,
      heatAccumStep_eq, if_pos (by norm_num)]
  have e1 : heatHoldStored (1/10) (4/5) (13/10) 1 = 26/25 := by
    simp only [heatHoldStored]
    rw [heatAccumStep_eq, if_pos (by norm_num), heatDecaySnap_eq, if_neg (by norm_num)]
    norm_num
  have o1 : heatHoldObs (1/10) (4/5) (13/10) 1 = 57/50 := by
    unfold heatHoldObs
    rw [e1, heatAccumStep_eq, if_neg (by norm_num)]
    norm_num
  exact ⟨o0, o1, by rw [o0, o1]; norm_num⟩

/-- C2 (amended): on consecutive holding frames at `dt = 1/60` the decay
step also runs, so the observed heat reaches the ceiling `1.3` and stays
exactly there only when `heatSensitivity` exceeds the per-frame decay loss
at the ceiling, `1.3 * (1 - heatDecay)`; under that proviso (with
`heatDecay` in its declared range `[0.8, 0.99]` and a nonnegative start)
the observed value never exceeds `1.3`, strictly increases while below
`1.3`, reaches `1.3` after finitely many frames, and equals exactly `1.3`
on every later holding frame.  The first conjunct ties the per-frame heat
step of `AppScene.update` to the sequence being analysed. -/
theorem heat_hold_accumulation (s d h0 : ℚ) (hd1 : 4/5 ≤ d) (hd2 : d ≤ 99/100)
    (hs : 13/10 * (1 - d) < s) (h0nn : 0 ≤ h0) :
    (∀ rnd dt st, st.textureReady = true → st.videoReady = true → st.hold = true →
      st.parameters.heatSensitivity = s → st.parameters.heatDecay = d →
      (AppScene.update rnd dt st).draw.uDraw = heatAccumStep s dt st.heatUp ∧
      (AppScene.update rnd dt st).heatUp = heatDecaySnap d (heatAccumStep s dt st.heatUp)) ∧
    (∀ n, heatHoldObs s d h0 n ≤ 13/10) ∧
    (∀ n, heatHoldObs s d h0 n < 13/10 →
      heatHoldObs s d h0 n < heatHoldObs s d h0 (n + 1)) ∧
    (∀ n m, n ≤ m → heatHoldObs s d h0 n = 13/10 → heatHoldObs s d h0 m = 13/10) ∧
    (∃ N, heatHoldObs s d h0 N = 13/10) := by
  refine ⟨?_, heatHoldObs_le s d h0, heatHoldObs_increase s d h0 hd1 hd2 hs h0nn, ?_, ?_⟩
  · intro rnd dt st ht hv hh hsens hdec
    constructor
    · simp [AppScene.update, ht, hv, hh, hsens, DrawRenderer.updateDirection,
        DrawRenderer.updateDraw, DrawRenderer.updatePosition]
    · simp [AppScene.update, ht, hv, hh, hsens, hdec]
  · intro n m hnm hceil
    induction m, hnm using Nat.le_induction with
    | base => exact hceil
    | succ m hm ih => exact heatHoldObs_stay s d h0 hd1 hd2 hs h0nn m ih
  · have heps : 0 < s - 13/10 * (1 - d) := by linarith
    obtain ⟨N, hN⟩ := exists_nat_gt ((13/10) / (s - 13/10 * (1 - d)))
    refine ⟨N, ?_⟩
    rcases heatHoldObs_linear_lb s d h0 hd1 hd2 hs h0nn N with hceil | hlb
    · exact hceil
    · exfalso
      have hobs0 : 0 ≤ heatHoldObs s d h0 0 := by
        unfold heatHoldObs
        rw [heatAccumStep_eq]
        split_ifs with h
        · norm_num
        · simp only [heatHoldStored]; linarith
      have hNe : (13/10 : ℚ) < N * (s - 13/10 * (1 - d)) := by
        rw [div_lt_iff heps] at hN
        linarith
      have := heatHoldObs_le s d h0 N
      linarith

/-- Witness for the amended C2 at the reference configuration
`heatSensitivity = 0.5`, `heatDecay = 0.95`, starting from zero heat. -/
theorem heat_hold_accumulation_witness :
    ((4:ℚ)/5 ≤ 19/20 ∧ (19:ℚ)/20 ≤ 99/100 ∧ (13:ℚ)/10 * (1 - 19/20) < 1/2 ∧ (0:ℚ) ≤ 0) ∧
    ∀ n, heatHoldObs (1/2) (19/20) 0 n ≤ 13/10 :=
  ⟨⟨by norm_num, by norm_num, by norm_num, le_refl 0⟩,
    (heat_hold_accumulation (1/2) (19/20) 0 (by norm_num) (by norm_num)
      (by norm_num) (le_refl 0)).2.1⟩

/-- Stored heat stays nonnegative along non-holding frames. -/
lemma heatReleaseStored_nonneg (d h0 : ℚ) (hd : 0 ≤ d) (h0nn : 0 ≤ h0) :
    ∀ n, 0 ≤ heatReleaseStored d h0 n := by
  intro n
  induction n with
  | zero => exact h0nn
  | succ n ih =>
    simp only [heatReleaseStored]
    rw [heatDecaySnap_eq]
    split_ifs with h
    · exact le_refl 0
    · exact mul_nonneg ih hd

/-- Stored heat along non-holding frames is dominated by pure geometric
decay. -/
lemma heatReleaseStored_le_pow (d h0 : ℚ) (hd : 0 ≤ d) (h0nn : 0 ≤ h0) :
    ∀ n, heatReleaseStored d h0 n ≤ d ^ n * h0 := by
  intro n
  induction n with
  | zero => simp [heatReleaseStored]
  | succ n ih =>
    simp only [heatReleaseStored]
    rw [heatDecaySnap_eq]
    have hnn := heatReleaseStored_nonneg d h0 hd h0nn n
    split_ifs with h
    · positivity
    · calc heatReleaseStored d h0 n * d ≤ d ^ n * h0 * d :=
            mul_le_mul_of_nonneg_right ih hd
        _ = d ^ (n + 1) * h0 := by ring

/-- C3: with holding false, each update multiplies the stored heat by
`heatDecay` except that a product below the `0.001` cleanup threshold is
snapped to exactly `0`; zero is absorbing, no positive stored value below
the threshold ever persists, and the stored heat reaches exactly `0` after
finitely many non-holding frames.  The first conjunct ties the per-frame
step of `AppScene.update` to `heatDecaySnap`. -/
theorem heat_release_decay (d h0 : ℚ) (hd0 : 0 ≤ d) (hd1 : d ≤ 99/100) (h0nn : 0 ≤ h0) :
    (∀ rnd dt st, st.textureReady = true → st.hold = false →
      (AppScene.update rnd dt st).heatUp = heatDecaySnap st.parameters.heatDecay st.heatUp) ∧
    (∀ n, (1/1000 ≤ heatReleaseStored d h0 n * d →
        heatReleaseStored d h0 (n + 1) = heatReleaseStored d h0 n * d) ∧
      (heatReleaseStored d h0 n * d < 1/1000 → heatReleaseStored d h0 (n + 1) = 0)) ∧
    (∀ n, heatReleaseStored d h0 (n + 1) = 0 ∨ 1/1000 ≤ heatReleaseStored d h0 (n + 1)) ∧
    (∀ n m, n ≤ m → heatReleaseStored d h0 n = 0 → heatReleaseStored d h0 m = 0) ∧
    (∃ N, heatReleaseStored d h0 N = 0) := by
  have hzero : ∀ n, heatReleaseStored d h0 n = 0 → heatReleaseStored d h0 (n + 1) = 0 := by
    intro n h
    simp only [heatReleaseStored]
    rw [h, heatDecaySnap_eq, if_pos (by norm_num)]
  have hthresh : ∀ n, heatReleaseStored d h0 (n + 1) = 0 ∨
      1/1000 ≤ heatReleaseStored d h0 (n + 1) := by
    intro n
    simp only [heatReleaseStored]
    rw [heatDecaySnap_eq]
    split_ifs with h
    · exact Or.inl rfl
    · exact Or.inr (le_of_not_lt h)
  refine ⟨?_, ?_, hthresh, ?_, ?_⟩
  · intro rnd dt st ht hh
    simp [AppScene.update, ht, hh]
  · intro n
    constructor
    · intro h
      simp only [heatReleaseStored]
      rw [heatDecaySnap_eq, if_neg (not_lt.2 h)]
    · intro h
      simp only [heatReleaseStored]
      rw [heatDecaySnap_eq, if_pos h]
  · intro n m hnm h
    induction m, hnm using Nat.le_induction with
    | base => exact h
    | succ m hm ih => exact hzero m ih
  · rcases eq_or_lt_of_le h0nn with h0z | h0pos
    · exact ⟨0, h0z.symm⟩
    · obtain ⟨N, hN⟩ := exists_pow_lt_of_lt_one
        (show (0:ℚ) < (1/1000) / h0 by positivity) (show d < 1 by linarith)
      refine ⟨N + 1, ?_⟩
      have hlt : d ^ N * h0 < 1/1000 := by
        rw [lt_div_iff h0pos] at hN
        linarith [hN]
      have hle : heatReleaseStored d h0 (N + 1) ≤ d ^ (N + 1) * h0 :=
        heatReleaseStored_le_pow d h0 hd0 h0nn (N + 1)
      have hpow : d ^ (N + 1) * h0 ≤ d ^ N * h0 := by
        have hp : d ^ (N + 1) ≤ d ^ N :=
          pow_le_pow_of_le_one hd0 (by linarith) (Nat.le_succ N)
        exact mul_le_mul_of_nonneg_right hp h0nn
      rcases hthresh N with hz | hge
      · exact hz
      · exfalso; linarith

/-- Witness for C3 at the default decay and unit starting heat. -/
theorem heat_release_decay_witness :
    ((0:ℚ) ≤ 19/20 ∧ (19:ℚ)/20 ≤ 99/100 ∧ (0:ℚ) ≤ 1) ∧
    ∃ N, heatReleaseStored (19/20) 1 N = 0 :=
  ⟨⟨by norm_num, by norm_num, by norm_num⟩,
    (heat_release_decay (19/20) 1 (by norm_num) (by norm_num) (by norm_num)).2.2.2.2⟩

/-- Witness for C10 at a concrete ready state with no pointer event pending. -/
theorem update_end_of_frame_reset_witness :
    ({ AppScene.initial with textureReady := true, videoReady := true } :
        AppSceneState).textureReady = true ∧
    ({ AppScene.initial with textureReady := true, videoReady := true } :
        AppSceneState).hold = false ∧
    (AppScene.update 0 (1/60)
        { AppScene.initial with textureReady := true, videoReady := true }).heatUp =
      heatDecaySnap DEFAULT_PARAMETERS.heatDecay 0 :=
  ⟨rfl, rfl,
    (update_end_of_frame_reset 0 (1/60)
      { AppScene.initial with textureReady := true, videoReady := true } rfl).2.2 rfl⟩

/-- C6: the thermal gradient adds `gradientShift` to the lookup input
before clamping to `[0,1]`; the effective input is
`clamp(t + gradientShift, 0, 1)` feeding the fixed 1-to-7 stop chain, and
out-of-range sums saturate at the boundary stops instead of wrapping. -/
theorem gradient_shift_saturates (shift t : ℚ) :
    gradient shift t = gradientStops (clamp (t + shift) 0 1) ∧
    (1 ≤ t + shift → gradient shift t = gradientStops 1) ∧
    (t + shift ≤ 0 → gradient shift t = gradientStops 0) := by
  refine ⟨rfl, ?_, ?_⟩
  · intro h
    have hc : clamp (t + shift) 0 1 = 1 := by
      rw [clamp, max_eq_left (by linarith), min_eq_right h]
    rw [gradient, hc]
  · intro h
    have hc : clamp (t + shift) 0 1 = 0 := by
      rw [clamp, max_eq_right h, min_eq_left (by norm_num)]
    rw [gradient, hc]

/-- Witness for C6: a shifted input summing to `1.2` saturates to the
effective input `1`. -/
theorem gradient_shift_saturates_witness :
    (1 : ℚ) ≤ 7/10 + 1/2 ∧ gradient (1/2) (7/10) = gradientStops 1 :=
  ⟨by norm_num, (gradient_shift_saturates (1/2) (7/10)).2.1 (by norm_num)⟩

end AppleShader
